import Mathlib

/-!
A shallow embedding of the `clickward` cluster-orchestration library
(`src/lib.rs`, `src/keeper.rs`): the `ClickwardMetadata` topology record and
its add/remove bookkeeping, the `Deployment` membership operations modelled as
explicit traces of externally visible effects (persist metadata, render a
config file, start or stop a process), the JSON persistence of the metadata
record, the keeper-client membership parser, and the derived port/path
placement functions.

Rust `u64` values are modelled as `Nat` (all arithmetic here is far below
`2^64` except where an explicit bound is written), `BTreeSet<u64>` as a
strictly ascending `List Nat` (matching the B-tree's sorted iteration order),
and fallible operations return `Option`/`Except`/a success flag.
-/

namespace Clickward

/-- Ordered insertion into a strictly ascending list; inserting an element
that is already present is a no-op.  This mirrors `BTreeSet::insert` on the
sorted-list model of `BTreeSet<u64>`. -/
def sinsert (x : ℕ) : List ℕ → List ℕ
  | [] => [x]
  | y :: ys =>
    if x < y then x :: y :: ys
    else if x = y then y :: ys
    else y :: sinsert x ys

/-- The persisted metadata record (`ClickwardMetadata` in `src/lib.rs`):
live keeper ids, the keeper-id watermark, live clickhouse server ids, and the
server-id watermark.  The id sets are modelled as ascending lists. -/
structure ClickwardMetadata where
  keeper_ids : List ℕ
  max_keeper_id : ℕ
  server_ids : List ℕ
  max_server_id : ℕ
deriving DecidableEq

/-- `ClickwardMetadata::new`: takes the initial id sets and records the last
(i.e. largest) element of each as the watermark.  The Rust code calls
`.last().unwrap()` on both sets, which panics when a set is empty; the panic
is modelled as `none`. -/
def ClickwardMetadata.new (keeper_ids replica_ids : List ℕ) :
    Option ClickwardMetadata :=
  match keeper_ids.getLast?, replica_ids.getLast? with
  | some max_keeper_id, some max_replica_id =>
    some ⟨keeper_ids, max_keeper_id, replica_ids, max_replica_id⟩
  | _, _ => none

/-- `ClickwardMetadata::add_keeper`: increment the keeper watermark, insert
the new id into the live set, and return the new id. -/
def ClickwardMetadata.add_keeper (m : ClickwardMetadata) :
    ClickwardMetadata × ℕ :=
  let newId := m.max_keeper_id + 1
  ({ m with max_keeper_id := newId,
            keeper_ids := sinsert newId m.keeper_ids }, newId)

/-- `ClickwardMetadata::remove_keeper`: remove `id` from the live keeper set;
the boolean is `BTreeSet::remove`'s return value (`false` means the Rust code
bails with "No such keeper" and the set was left unchanged). -/
def ClickwardMetadata.remove_keeper (m : ClickwardMetadata) (id : ℕ) :
    ClickwardMetadata × Bool :=
  ({ m with keeper_ids := m.keeper_ids.erase id },
   decide (id ∈ m.keeper_ids))

/-- `ClickwardMetadata::add_server`: increment the server watermark, insert
the new id into the live set, and return the new id. -/
def ClickwardMetadata.add_server (m : ClickwardMetadata) :
    ClickwardMetadata × ℕ :=
  let newId := m.max_server_id + 1
  ({ m with max_server_id := newId,
            server_ids := sinsert newId m.server_ids }, newId)

/-- `ClickwardMetadata::remove_server`: remove `id` from the live server set;
`false` means the Rust code bails with "No such replica". -/
def ClickwardMetadata.remove_server (m : ClickwardMetadata) (id : ℕ) :
    ClickwardMetadata × Bool :=
  ({ m with server_ids := m.server_ids.erase id },
   decide (id ∈ m.server_ids))

/-- One membership operation on the metadata record, for reasoning about
arbitrary sequences of adds and removes. -/
inductive Op
  | add_keeper
  | add_server
  | remove_keeper (id : ℕ)
  | remove_server (id : ℕ)
deriving DecidableEq

/-- Run a sequence of membership operations from a starting record, returning
the final record together with the keeper ids and the server ids issued by
the add operations, in issuance order.  A remove of an absent id leaves the
record unchanged (the Rust code bails after a no-op `BTreeSet::remove`). -/
def runOps (m : ClickwardMetadata) : List Op → ClickwardMetadata × List ℕ × List ℕ
  | [] => (m, [], [])
  | Op.add_keeper :: rest =>
    let p := m.add_keeper
    let r := runOps p.1 rest
    (r.1, p.2 :: r.2.1, r.2.2)
  | Op.add_server :: rest =>
    let p := m.add_server
    let r := runOps p.1 rest
    (r.1, r.2.1, p.2 :: r.2.2)
  | Op.remove_keeper id :: rest => runOps (m.remove_keeper id).1 rest
  | Op.remove_server id :: rest => runOps (m.remove_server id).1 rest

/-- An externally visible effect of a `Deployment` operation: persisting the
metadata record, rendering a keeper config (for a keeper id, from a keeper
membership list), rendering a clickhouse server config (for a server id, from
the keeper and server membership lists), or requesting a process
start / stop. -/
inductive Event
  | saveMeta (m : ClickwardMetadata)
  | genKeeperConfig (id : ℕ) (members : List ℕ)
  | genServerConfig (id : ℕ) (keepers : List ℕ) (servers : List ℕ)
  | startKeeper (id : ℕ)
  | startServer (id : ℕ)
  | stopKeeper (id : ℕ)
  | stopServer (id : ℕ)
deriving DecidableEq

/-- True of the config-rendering events (`generate_keeper_config` writing
`keeper-config.xml`, or one iteration of `generate_clickhouse_config` writing
`clickhouse-config.xml`). -/
def isRenderEvent : Event → Bool
  | Event.genKeeperConfig _ _ => true
  | Event.genServerConfig _ _ _ => true
  | _ => false

/-- True of a keeper-config render. -/
def isKeeperRenderEvent : Event → Bool
  | Event.genKeeperConfig _ _ => true
  | _ => false

/-- True of a clickhouse-server-config render. -/
def isServerRenderEvent : Event → Bool
  | Event.genServerConfig _ _ _ => true
  | _ => false

/-- True of the process-start events. -/
def isStartEvent : Event → Bool
  | Event.startKeeper _ => true
  | Event.startServer _ => true
  | _ => false

/-- True of the process-stop events. -/
def isStopEvent : Event → Bool
  | Event.stopKeeper _ => true
  | Event.stopServer _ => true
  | _ => false

/-- True of a keeper-config render for the given keeper id. -/
def isKeeperConfigFor (id : ℕ) : Event → Bool
  | Event.genKeeperConfig i _ => i == id
  | _ => false

/-- True of a metadata-persist event. -/
def isSaveEvent : Event → Bool
  | Event.saveMeta _ => true
  | _ => false

/-- The property claimed of a removal trace: no config render occurs after a
stop request has been issued (an event ordering constraint, stated over every
ordered pair of trace positions). -/
def noRenderAfterStop (tr : List Event) : Prop :=
  tr.Pairwise (fun a b => isStopEvent a = true → isRenderEvent b = false)

/-- `Deployment::generate_clickhouse_config`: renders one
`clickhouse-config.xml` per live server id, each from the full keeper and
server membership lists (iterating servers in ascending order). -/
def generate_clickhouse_config (keeper_ids server_ids : List ℕ) : List Event :=
  server_ids.map (fun id => Event.genServerConfig id keeper_ids server_ids)

/-- `Deployment::generate_keeper_config`: renders `keeper-config.xml` for one
keeper from a keeper membership list. -/
def generate_keeper_config (this_keeper : ℕ) (keeper_ids : List ℕ) : Event :=
  Event.genKeeperConfig this_keeper keeper_ids

/-- `Deployment::add_keeper` on a loaded metadata record: allocate the next
keeper id, persist, render the new keeper's config, start it, re-render every
other keeper's config, then re-render the clickhouse configs.  Returns the
updated record and the effect trace. -/
def Deployment.add_keeper (m : ClickwardMetadata) :
    ClickwardMetadata × List Event :=
  let p := m.add_keeper
  let m2 := p.1
  let newId := p.2
  (m2,
   Event.saveMeta m2 ::
     generate_keeper_config newId m2.keeper_ids ::
       Event.startKeeper newId ::
         ((m2.keeper_ids.erase newId).map
            (fun id => generate_keeper_config id m2.keeper_ids) ++
          generate_clickhouse_config m2.keeper_ids m2.server_ids))

/-- `Deployment::add_server` on a loaded metadata record: allocate the next
server id, persist, re-render the clickhouse configs, then start the new
replica. -/
def Deployment.add_server (m : ClickwardMetadata) :
    ClickwardMetadata × List Event :=
  let p := m.add_server
  let m2 := p.1
  let newId := p.2
  (m2,
   Event.saveMeta m2 ::
     (generate_clickhouse_config m2.keeper_ids m2.server_ids ++
      [Event.startServer newId]))

/-- `Deployment::remove_keeper` on a loaded metadata record.  When `id` is
live: remove it, persist, re-render every remaining keeper's config, stop the
removed keeper, then re-render the clickhouse configs; the flag is `true`.
When `id` is absent the Rust code propagates the "No such keeper" error
before saving: the record is unchanged, the trace empty, the flag `false`. -/
def Deployment.remove_keeper (m : ClickwardMetadata) (id : ℕ) :
    ClickwardMetadata × List Event × Bool :=
  let p := m.remove_keeper id
  if p.2 then
    (p.1,
     Event.saveMeta p.1 ::
       (p.1.keeper_ids.map (fun k => generate_keeper_config k p.1.keeper_ids) ++
        Event.stopKeeper id ::
          generate_clickhouse_config p.1.keeper_ids p.1.server_ids),
     true)
  else
    (p.1, [], false)

/-- `Deployment::remove_server` on a loaded metadata record.  When `id` is
live: remove it, persist, re-render the clickhouse configs, then stop the
removed server; the flag is `true`.  When `id` is absent: record unchanged,
trace empty, flag `false`. -/
def Deployment.remove_server (m : ClickwardMetadata) (id : ℕ) :
    ClickwardMetadata × List Event × Bool :=
  let p := m.remove_server id
  if p.2 then
    (p.1,
     Event.saveMeta p.1 ::
       (generate_clickhouse_config p.1.keeper_ids p.1.server_ids ++
        [Event.stopServer id]),
     true)
  else
    (p.1, [], false)

/-- `Deployment::teardown`: when metadata is present, attempt to stop every
keeper and then every server recorded in it; each attempt's outcome (taken
from the `stopOk` oracle, standing for whether the underlying
`stop_keeper` / `stop_server` call succeeds) is recorded and discarded
(`let _ = self.stop_keeper(*id)`), and the operation returns `Ok` (`true`)
regardless.  With no metadata nothing is stopped and the result is still
`Ok`. -/
def Deployment.teardown (meta : Option ClickwardMetadata)
    (stopOk : Event → Bool) : List (Event × Bool) × Bool :=
  match meta with
  | none => ([], true)
  | some m =>
    ((m.keeper_ids.map Event.stopKeeper ++
        m.server_ids.map Event.stopServer).map (fun e => (e, stopOk e)),
     true)

/-- `Deployment::generate_config`: build the id sets `1..=num_keepers` and
`1..=num_replicas`, render the clickhouse configs, render each keeper's
config, then build the metadata record and persist it.  No process is
started.  The `ClickwardMetadata::new` panic on an empty id set is modelled
as `none`. -/
def Deployment.generate_config (num_keepers num_replicas : ℕ) :
    Option (ClickwardMetadata × List Event) :=
  let keeper_ids := List.range' 1 num_keepers
  let replica_ids := List.range' 1 num_replicas
  match ClickwardMetadata.new keeper_ids replica_ids with
  | none => none
  | some meta =>
    some (meta,
      generate_clickhouse_config keeper_ids replica_ids ++
        keeper_ids.map (fun id => generate_keeper_config id keeper_ids) ++
        [Event.saveMeta meta])

/-- The static base-port table (`BasePorts` in `src/lib.rs`); `u16` fields
modelled as `Nat` below `2^16`. -/
structure BasePorts where
  keeper : ℕ
  raft : ℕ
  clickhouse_tcp : ℕ
  clickhouse_http : ℕ
  clickhouse_interserver_http : ℕ
deriving DecidableEq

/-- `DEFAULT_BASE_PORTS` from `src/lib.rs`. -/
def DEFAULT_BASE_PORTS : BasePorts :=
  ⟨20000, 21000, 22000, 23000, 24000⟩

/-- `DeploymentConfig`: deployment root path, base-port table and cluster
name (paths and names modelled as character lists). -/
structure DeploymentConfig where
  path : List Char
  base_ports : BasePorts
  cluster_name : List Char
deriving DecidableEq

/-- A `Deployment`: its configuration plus the metadata record, when one was
loaded. -/
structure Deployment where
  config : DeploymentConfig
  meta : Option ClickwardMetadata

/-- Truncation of a `u64` to `u16` (`id.0 as u16` in the Rust code). -/
def toU16 (n : ℕ) : ℕ := n % 65536

/-- `u16` addition with release-mode wrap-around semantics. -/
def addU16 (a b : ℕ) : ℕ := (a + b) % 65536

/-- `Deployment::http_port`: `base_ports.clickhouse_http + id.0 as u16`. -/
def Deployment.http_port (d : Deployment) (id : ℕ) : ℕ :=
  addU16 d.config.base_ports.clickhouse_http (toU16 id)

/-- `Deployment::keeper_port`: `base_ports.keeper + id.0 as u16`. -/
def Deployment.keeper_port (d : Deployment) (id : ℕ) : ℕ :=
  addU16 d.config.base_ports.keeper (toU16 id)

/-- The per-keeper directory: `<path>/keeper-<id>` (as built by
`start_keeper`, `stop_keeper` and `generate_keeper_config`). -/
def Deployment.keeperDir (d : Deployment) (id : ℕ) : List Char :=
  d.config.path ++ ('/' :: ("keeper-".toList ++ (Nat.repr id).toList))

/-- The per-server directory: `<path>/clickhouse-<id>` (as built by
`start_server`, `stop_server` and `generate_clickhouse_config`). -/
def Deployment.clickhouseDir (d : Deployment) (id : ℕ) : List Char :=
  d.config.path ++ ('/' :: ("clickhouse-".toList ++ (Nat.repr id).toList))

/-- A JSON document, the target of `serde_json` serialization of the
metadata record. -/
inductive Json
  | num (n : ℕ)
  | str (s : List Char)
  | arr (elems : List Json)
  | obj (fields : List (List Char × Json))

/-- `serde_json::to_string(&meta)`: a `ClickwardMetadata` serializes to an
object with the four fields in declaration order; a `BTreeSet<u64>` to an
array of numbers in ascending order; the id newtypes to their inner
number. -/
def ClickwardMetadata.save (m : ClickwardMetadata) : Json :=
  Json.obj
    [("keeper_ids".toList, Json.arr (m.keeper_ids.map Json.num)),
     ("max_keeper_id".toList, Json.num m.max_keeper_id),
     ("server_ids".toList, Json.arr (m.server_ids.map Json.num)),
     ("max_server_id".toList, Json.num m.max_server_id)]

/-- Field lookup in a JSON object (serde matches struct fields by name). -/
def getField (name : List Char) : List (List Char × Json) → Option Json
  | [] => none
  | f :: rest => if f.1 = name then some f.2 else getField name rest

/-- Deserialize a `u64`. -/
def decodeNat : Json → Option ℕ
  | Json.num n => some n
  | _ => none

/-- Deserialize a sequence of `u64`s, failing on any non-number element. -/
def decodeNats : List Json → Option (List ℕ)
  | [] => some []
  | j :: rest =>
    match decodeNat j, decodeNats rest with
    | some n, some ns => some (n :: ns)
    | _, _ => none

/-- Deserialize a `BTreeSet<u64>` (a JSON array of numbers). -/
def decodeNatList : Json → Option (List ℕ)
  | Json.arr elems => decodeNats elems
  | _ => none

/-- `ClickwardMetadata::load` composed with `serde_json::from_str` on a
parsed document: require an object, look up each of the four fields by name
and deserialize it; any missing or ill-typed field is a deserialization
error (`none`). -/
def ClickwardMetadata.load (j : Json) : Option ClickwardMetadata :=
  match j with
  | Json.obj fields =>
    match getField "keeper_ids".toList fields >>= decodeNatList,
          getField "max_keeper_id".toList fields >>= decodeNat,
          getField "server_ids".toList fields >>= decodeNatList,
          getField "max_server_id".toList fields >>= decodeNat with
    | some ks, some mxk, some ss, some mxs => some ⟨ks, mxk, ss, mxs⟩
    | _, _, _, _ => none
  | _ => none

/-- `KeeperError` from `src/keeper.rs` (the `Io` payload is dropped). -/
inductive KeeperError
  | noConfig
  | ioFailure
  | unexpectedResponse
deriving DecidableEq

/-- Split a character list at every occurrence of `c`; always returns at
least one piece (mirrors Rust's `str::split` on a single-character
pattern). -/
def splitOnCharAux (c : Char) (cur : List Char) : List Char → List (List Char)
  | [] => [cur.reverse]
  | x :: xs =>
    if x = c then cur.reverse :: splitOnCharAux c [] xs
    else splitOnCharAux c (x :: cur) xs

/-- Split a character list at every occurrence of `c`. -/
def splitOnChar (c : Char) (l : List Char) : List (List Char) :=
  splitOnCharAux c [] l

/-- Drop one trailing carriage return, as Rust's `str::lines` does to each
line. -/
def dropCR (l : List Char) : List Char :=
  if l.getLast? = some '\r' then l.dropLast else l

/-- Rust's `str::lines`: split at every newline, a final line ending being
optional (so a trailing empty piece is dropped), and strip one trailing
carriage return per line. -/
def rustLines (l : List Char) : List (List Char) :=
  let parts := splitOnChar '\n' l
  let parts2 := if parts.getLast? = some [] then parts.dropLast else parts
  parts2.map dropCR

/-- Rust's `str::strip_prefix`: the remainder of `l` after `pre`, or `none`
when `pre` is not a prefix of `l`. -/
def dropPre : List Char → List Char → Option (List Char)
  | [], l => some l
  | _ :: _, [] => none
  | p :: ps, x :: xs => if x = p then dropPre ps xs else none

/-- Accumulate the value of a digit string (Rust's `u64::from_str` digit
loop). -/
def digitsToNat (l : List Char) : ℕ :=
  l.foldl (fun acc c => acc * 10 + (c.toNat - 48)) 0

/-- Rust's `str::parse::<u64>`: an optional leading plus sign, then at least
one ASCII digit, with the value required to fit in a `u64`. -/
def parseU64 (s : List Char) : Option ℕ :=
  let s2 := match s with
    | '+' :: rest => rest
    | _ => s
  if s2 = [] then none
  else if s2.all Char.isDigit then
    if digitsToNat s2 < 2 ^ 64 then some (digitsToNat s2) else none
  else none

/-- One line of the `get /keeper/config` response, parsed as in
`KeeperClient::config`: strip the `server.` lead-in, take the piece before
the first `=` as the id and the piece after it (up to the next `=`) as the
rest, take the piece of the rest before the first `;` as the address, and
parse the id as a `u64`.  Any failure is `UnexpectedResponse` (`none`). -/
def parseConfigLine (line : List Char) : Option (ℕ × List Char) := do
  let s ← dropPre "server.".toList line
  let parts := splitOnChar '=' s
  let idStr ← parts.head?
  let rest ← parts[1]?
  let addr ← (splitOnChar ';' rest).head?
  let id ← parseU64 idStr
  pure (id, addr)

/-- `BTreeMap<u64, _>::insert` on a key-sorted association list (overwriting
an existing binding for the key). -/
def mapInsert (k : ℕ) (v : List Char) :
    List (ℕ × List Char) → List (ℕ × List Char)
  | [] => [(k, v)]
  | (k2, v2) :: rest =>
    if k < k2 then (k, v) :: (k2, v2) :: rest
    else if k = k2 then (k, v) :: rest
    else (k2, v2) :: mapInsert k v rest

/-- The line loop of `KeeperClient::config`: fold the parsed lines into the
map, stopping with `UnexpectedResponse` at the first line that fails the
grammar. -/
def configLinesGo : List (List Char) → List (ℕ × List Char) →
    Except KeeperError (List (ℕ × List Char))
  | [], acc => Except.ok acc
  | line :: rest, acc =>
    match parseConfigLine line with
    | none => Except.error KeeperError.unexpectedResponse
    | some p => configLinesGo rest (mapInsert p.1 p.2 acc)

/-- `KeeperClient::config` applied to the raw text returned by the
`get /keeper/config` query: parse every line into an (id, address) map,
all-or-nothing. -/
def KeeperClient.config (output : List Char) :
    Except KeeperError (List (ℕ × List Char)) :=
  configLinesGo (rustLines output) []

/-! ## Bookkeeping lemmas for sequences of membership operations -/

/-- The keeper watermark never decreases across a run of operations. -/
theorem runOps_max_keeper_mono (ops : List Op) (m : ClickwardMetadata) :
    m.max_keeper_id ≤ (runOps m ops).1.max_keeper_id := by
  induction ops generalizing m with
  | nil => exact Nat.le_refl _
  | cons op rest ih =>
    cases op with
    | add_keeper => exact Nat.le_trans (Nat.le_succ _) (ih m.add_keeper.1)
    | add_server => exact ih m.add_server.1
    | remove_keeper id => exact ih (m.remove_keeper id).1
    | remove_server id => exact ih (m.remove_server id).1

/-- The server watermark never decreases across a run of operations. -/
theorem runOps_max_server_mono (ops : List Op) (m : ClickwardMetadata) :
    m.max_server_id ≤ (runOps m ops).1.max_server_id := by
  induction ops generalizing m with
  | nil => exact Nat.le_refl _
  | cons op rest ih =>
    cases op with
    | add_keeper => exact ih m.add_keeper.1
    | add_server => exact Nat.le_trans (Nat.le_succ _) (ih m.add_server.1)
    | remove_keeper id => exact ih (m.remove_keeper id).1
    | remove_server id => exact ih (m.remove_server id).1

/-- Every keeper id issued during a run is strictly above the starting
keeper watermark. -/
theorem runOps_keeper_issued_gt (ops : List Op) (m : ClickwardMetadata) :
    ∀ x ∈ (runOps m ops).2.1, m.max_keeper_id < x := by
  induction ops generalizing m with
  | nil => intro x hx; cases hx
  | cons op rest ih =>
    cases op with
    | add_keeper =>
      intro x hx
      have hx2 : x ∈ m.add_keeper.2 :: (runOps m.add_keeper.1 rest).2.1 := hx
      rcases List.mem_cons.1 hx2 with h | h
      · rw [h]; exact Nat.lt_succ_self _
      · exact Nat.lt_trans (Nat.lt_succ_self _) (ih m.add_keeper.1 x h)
    | add_server => exact fun x hx => ih m.add_server.1 x hx
    | remove_keeper id => exact fun x hx => ih (m.remove_keeper id).1 x hx
    | remove_server id => exact fun x hx => ih (m.remove_server id).1 x hx

/-- Every server id issued during a run is strictly above the starting
server watermark. -/
theorem runOps_server_issued_gt (ops : List Op) (m : ClickwardMetadata) :
    ∀ x ∈ (runOps m ops).2.2, m.max_server_id < x := by
  induction ops generalizing m with
  | nil => intro x hx; cases hx
  | cons op rest ih =>
    cases op with
    | add_keeper => exact fun x hx => ih m.add_keeper.1 x hx
    | add_server =>
      intro x hx
      have hx2 : x ∈ m.add_server.2 :: (runOps m.add_server.1 rest).2.2 := hx
      rcases List.mem_cons.1 hx2 with h | h
      · rw [h]; exact Nat.lt_succ_self _
      · exact Nat.lt_trans (Nat.lt_succ_self _) (ih m.add_server.1 x h)
    | remove_keeper id => exact fun x hx => ih (m.remove_keeper id).1 x hx
    | remove_server id => exact fun x hx => ih (m.remove_server id).1 x hx

/-- The keeper ids issued during a run are strictly increasing in issuance
order. -/
theorem runOps_keeper_issued_sorted (ops : List Op) (m : ClickwardMetadata) :
    ((runOps m ops).2.1).Pairwise (· < ·) := by
  induction ops generalizing m with
  | nil => exact List.Pairwise.nil
  | cons op rest ih =>
    cases op with
    | add_keeper =>
      have h : (m.add_keeper.2 :: (runOps m.add_keeper.1 rest).2.1).Pairwise (· < ·) :=
        List.Pairwise.cons
          (fun y hy => runOps_keeper_issued_gt rest m.add_keeper.1 y hy)
          (ih m.add_keeper.1)
      exact h
    | add_server => exact ih m.add_server.1
    | remove_keeper id => exact ih (m.remove_keeper id).1
    | remove_server id => exact ih (m.remove_server id).1

/-- The server ids issued during a run are strictly increasing in issuance
order. -/
theorem runOps_server_issued_sorted (ops : List Op) (m : ClickwardMetadata) :
    ((runOps m ops).2.2).Pairwise (· < ·) := by
  induction ops generalizing m with
  | nil => exact List.Pairwise.nil
  | cons op rest ih =>
    cases op with
    | add_keeper => exact ih m.add_keeper.1
    | add_server =>
      have h : (m.add_server.2 :: (runOps m.add_server.1 rest).2.2).Pairwise (· < ·) :=
        List.Pairwise.cons
          (fun y hy => runOps_server_issued_gt rest m.add_server.1 y hy)
          (ih m.add_server.1)
      exact h
    | remove_keeper id => exact ih (m.remove_keeper id).1
    | remove_server id => exact ih (m.remove_server id).1

/-- Running a concatenation of operation sequences reaches the same final
record as running the second sequence from the first sequence's result. -/
theorem runOps_fst_append (l₁ l₂ : List Op) (m : ClickwardMetadata) :
    (runOps m (l₁ ++ l₂)).1 = (runOps (runOps m l₁).1 l₂).1 := by
  induction l₁ generalizing m with
  | nil => rfl
  | cons op rest ih =>
    cases op with
    | add_keeper => exact ih m.add_keeper.1
    | add_server => exact ih m.add_server.1
    | remove_keeper id => exact ih (m.remove_keeper id).1
    | remove_server id => exact ih (m.remove_server id).1

/-- C1: starting from a topology produced by `generate_config`, no keeper or
server id is ever issued twice by any sequence of add/remove operations (the
issued lists have no duplicates, removals included), and both watermarks are
non-decreasing across the whole sequence (any prefix's watermark is at most
the final one). -/
theorem ids_never_reused (k r : ℕ) (m0 : ClickwardMetadata) (tr : List Event)
    (hgen : Deployment.generate_config k r = some (m0, tr)) (ops : List Op) :
    ((runOps m0 ops).2.1).Nodup ∧ ((runOps m0 ops).2.2).Nodup ∧
    ∀ l₁ l₂, ops = l₁ ++ l₂ →
      (runOps m0 l₁).1.max_keeper_id ≤ (runOps m0 ops).1.max_keeper_id ∧
      (runOps m0 l₁).1.max_server_id ≤ (runOps m0 ops).1.max_server_id := by
  refine ⟨?_, ?_, ?_⟩
  · exact List.Pairwise.imp (fun h => Nat.ne_of_lt h)
      (runOps_keeper_issued_sorted ops m0)
  · exact List.Pairwise.imp (fun h => Nat.ne_of_lt h)
      (runOps_server_issued_sorted ops m0)
  · intro l₁ l₂ hsplit
    subst hsplit
    constructor
    · rw [runOps_fst_append]
      exact runOps_max_keeper_mono l₂ (runOps m0 l₁).1
    · rw [runOps_fst_append]
      exact runOps_max_server_mono l₂ (runOps m0 l₁).1

/-- C1 witness: the theorem instantiated on the topology generated by
`generate_config 3 2` and a concrete operation sequence that removes an id
and then re-adds. -/
theorem ids_never_reused_witness :
    ((runOps ⟨[1, 2, 3], 3, [1, 2], 2⟩
        [Op.add_keeper, Op.remove_keeper 4, Op.add_keeper, Op.add_server]).2.1).Nodup ∧
    (runOps (⟨[1, 2, 3], 3, [1, 2], 2⟩ : ClickwardMetadata)
        [Op.add_keeper]).1.max_keeper_id ≤
      (runOps ⟨[1, 2, 3], 3, [1, 2], 2⟩
        [Op.add_keeper, Op.remove_keeper 4, Op.add_keeper, Op.add_server]).1.max_keeper_id := by
  have h := ids_never_reused 3 2 ⟨[1, 2, 3], 3, [1, 2], 2⟩
    [Event.genServerConfig 1 [1, 2, 3] [1, 2], Event.genServerConfig 2 [1, 2, 3] [1, 2],
     Event.genKeeperConfig 1 [1, 2, 3], Event.genKeeperConfig 2 [1, 2, 3],
     Event.genKeeperConfig 3 [1, 2, 3],
     Event.saveMeta ⟨[1, 2, 3], 3, [1, 2], 2⟩]
    (by rfl)
    [Op.add_keeper, Op.remove_keeper 4, Op.add_keeper, Op.add_server]
  exact ⟨h.1,
    (h.2.2 [Op.add_keeper] [Op.remove_keeper 4, Op.add_keeper, Op.add_server] rfl).1⟩

/-! ## Ordering of the externally visible steps of add/remove -/

/-- C2: from the starting topology with keeper ids `{1,2,3}` (and servers
`{1,2}`), `add_keeper` persists the metadata with keeper ids `{1,2,3,4}`
before any config for node 4 is rendered, renders node 4's config before
node 4 is started, and starts node 4 before the configs of nodes 1, 2 and 3
are regenerated (each ordering stated over every ordered pair of trace
positions, together with the existence of each step in the trace). -/
theorem add_keeper_ordering_scenario :
    (Event.saveMeta ⟨[1, 2, 3, 4], 4, [1, 2], 2⟩) ∈
      (Deployment.add_keeper ⟨[1, 2, 3], 3, [1, 2], 2⟩).2 ∧
    Event.genKeeperConfig 4 [1, 2, 3, 4] ∈
      (Deployment.add_keeper ⟨[1, 2, 3], 3, [1, 2], 2⟩).2 ∧
    Event.startKeeper 4 ∈ (Deployment.add_keeper ⟨[1, 2, 3], 3, [1, 2], 2⟩).2 ∧
    (Event.genKeeperConfig 1 [1, 2, 3, 4] ∈
        (Deployment.add_keeper ⟨[1, 2, 3], 3, [1, 2], 2⟩).2 ∧
      Event.genKeeperConfig 2 [1, 2, 3, 4] ∈
        (Deployment.add_keeper ⟨[1, 2, 3], 3, [1, 2], 2⟩).2 ∧
      Event.genKeeperConfig 3 [1, 2, 3, 4] ∈
        (Deployment.add_keeper ⟨[1, 2, 3], 3, [1, 2], 2⟩).2) ∧
    ((Deployment.add_keeper ⟨[1, 2, 3], 3, [1, 2], 2⟩).2).Pairwise
      (fun a b => isKeeperConfigFor 4 a = true → isSaveEvent b = false) ∧
    ((Deployment.add_keeper ⟨[1, 2, 3], 3, [1, 2], 2⟩).2).Pairwise
      (fun a b => isStartEvent a = true → isKeeperConfigFor 4 b = false) ∧
    ((Deployment.add_keeper ⟨[1, 2, 3], 3, [1, 2], 2⟩).2).Pairwise
      (fun a b =>
        (isKeeperConfigFor 1 a || isKeeperConfigFor 2 a || isKeeperConfigFor 3 a) = true →
          isStartEvent b = false) := by
  decide

/-- C2 witness: the persist step of the scenario, projected from the
scenario theorem. -/
theorem add_keeper_ordering_scenario_witness :
    (Event.saveMeta ⟨[1, 2, 3, 4], 4, [1, 2], 2⟩) ∈
      (Deployment.add_keeper ⟨[1, 2, 3], 3, [1, 2], 2⟩).2 :=
  add_keeper_ordering_scenario.1

/-- C3 counterexample: on the live topology `{1,2,3}` with servers `{1,2}`,
removing keeper 3 produces a trace in which a config render (the
clickhouse-config regeneration) occurs after the stop request, so the
claimed "no config regeneration after the stop request" ordering is false on
the code. -/
theorem remove_keeper_render_after_stop_cex :
    ¬ noRenderAfterStop
        (Deployment.remove_keeper ⟨[1, 2, 3], 3, [1, 2], 2⟩ 3).2.1 := by
  unfold noRenderAfterStop
  decide

/-- C3 (amended): for every live keeper id, `remove_keeper` removes the id,
persists the reduced topology, regenerates every remaining keeper's config
from the reduced membership, then stops the removed keeper, and only after
the stop request regenerates the database-tier (clickhouse) configs. -/
theorem remove_keeper_ordering (m : ClickwardMetadata) (id : ℕ)
    (h : id ∈ m.keeper_ids) :
    (Deployment.remove_keeper m id).2.2 = true ∧
    (Deployment.remove_keeper m id).1 =
      { m with keeper_ids := m.keeper_ids.erase id } ∧
    (Deployment.remove_keeper m id).2.1 =
      Event.saveMeta { m with keeper_ids := m.keeper_ids.erase id } ::
        ((m.keeper_ids.erase id).map
            (fun k => generate_keeper_config k (m.keeper_ids.erase id)) ++
          Event.stopKeeper id ::
            generate_clickhouse_config (m.keeper_ids.erase id) m.server_ids) := by
  have hd : decide (id ∈ m.keeper_ids) = true := decide_eq_true h
  simp [Deployment.remove_keeper, ClickwardMetadata.remove_keeper, hd]

/-- C3 witness: the amended ordering instantiated at removing keeper 3 from
the live set `{1,2,3}`. -/
theorem remove_keeper_ordering_witness :
    (Deployment.remove_keeper ⟨[1, 2, 3], 3, [1, 2], 2⟩ 3).2.2 = true ∧
    (Deployment.remove_keeper ⟨[1, 2, 3], 3, [1, 2], 2⟩ 3).1 =
      { (⟨[1, 2, 3], 3, [1, 2], 2⟩ : ClickwardMetadata) with
          keeper_ids := [1, 2, 3].erase 3 } ∧
    (Deployment.remove_keeper ⟨[1, 2, 3], 3, [1, 2], 2⟩ 3).2.1 =
      Event.saveMeta
          { (⟨[1, 2, 3], 3, [1, 2], 2⟩ : ClickwardMetadata) with
              keeper_ids := [1, 2, 3].erase 3 } ::
        (([1, 2, 3].erase 3).map
            (fun k => generate_keeper_config k ([1, 2, 3].erase 3)) ++
          Event.stopKeeper 3 ::
            generate_clickhouse_config ([1, 2, 3].erase 3) [1, 2]) :=
  remove_keeper_ordering ⟨[1, 2, 3], 3, [1, 2], 2⟩ 3 (by decide)

/-- C4: removing a keeper id that is not live fails (the "No such keeper"
error), emits no effect at all (in particular no save), and leaves the
in-memory record — all four fields — unchanged. -/
theorem remove_keeper_unknown_clean (m : ClickwardMetadata) (id : ℕ)
    (h : id ∉ m.keeper_ids) :
    (Deployment.remove_keeper m id).1 = m ∧
    (Deployment.remove_keeper m id).2.1 = [] ∧
    (Deployment.remove_keeper m id).2.2 = false := by
  have hd : decide (id ∈ m.keeper_ids) = false := decide_eq_false h
  have he : m.keeper_ids.erase id = m.keeper_ids := List.erase_of_not_mem h
  obtain ⟨ks, a, ss, b⟩ := m
  simp only [ClickwardMetadata.keeper_ids] at he
  simp [Deployment.remove_keeper, ClickwardMetadata.remove_keeper, hd, he]

/-- C4 witness: removing the never-issued id 7 from the topology with live
keepers `{1,2,3}` fails cleanly. -/
theorem remove_keeper_unknown_clean_witness :
    (Deployment.remove_keeper ⟨[1, 2, 3], 3, [1, 2], 2⟩ 7).1 =
      (⟨[1, 2, 3], 3, [1, 2], 2⟩ : ClickwardMetadata) ∧
    (Deployment.remove_keeper ⟨[1, 2, 3], 3, [1, 2], 2⟩ 7).2.1 = [] ∧
    (Deployment.remove_keeper ⟨[1, 2, 3], 3, [1, 2], 2⟩ 7).2.2 = false :=
  remove_keeper_unknown_clean ⟨[1, 2, 3], 3, [1, 2], 2⟩ 7 (by decide)

/-! ## Persistence round-trip -/

/-- Decoding an array of serialized numbers yields the original list. -/
theorem decodeNats_map_num (l : List ℕ) :
    decodeNats (l.map Json.num) = some l := by
  induction l with
  | nil => rfl
  | cons x xs ih => simp [decodeNats, decodeNat, ih]

/-- C5: loading a saved metadata record returns an equal record, for every
record value — in particular for records whose id sets are empty. -/
theorem load_save_roundtrip (m : ClickwardMetadata) :
    ClickwardMetadata.load (ClickwardMetadata.save m) = some m := by
  obtain ⟨ks, a, ss, b⟩ := m
  have e1 : "keeper_ids".toList ≠ "max_keeper_id".toList := by decide
  have e2 : "keeper_ids".toList ≠ "server_ids".toList := by decide
  have e3 : "keeper_ids".toList ≠ "max_server_id".toList := by decide
  have e4 : "max_keeper_id".toList ≠ "server_ids".toList := by decide
  have e5 : "max_keeper_id".toList ≠ "max_server_id".toList := by decide
  have e6 : "server_ids".toList ≠ "max_server_id".toList := by decide
  simp [ClickwardMetadata.load, ClickwardMetadata.save, getField,
    decodeNatList, decodeNats_map_num, decodeNat, e1, e2, e3, e4, e5, e6]

/-- C5 witness: the round-trip theorem applied to the record with both id
sets empty. -/
theorem load_save_roundtrip_witness :
    ClickwardMetadata.load (ClickwardMetadata.save ⟨[], 0, [], 0⟩) =
      some ⟨[], 0, [], 0⟩ :=
  load_save_roundtrip ⟨[], 0, [], 0⟩

/-! ## Keeper membership parser -/

/-- If any line fails the grammar, the line loop returns `UnexpectedResponse`
whatever map has been accumulated so far: parsing is all-or-nothing. -/
theorem configLinesGo_error (lines : List (List Char)) :
    ∀ acc, (∃ l ∈ lines, parseConfigLine l = none) →
      configLinesGo lines acc = Except.error KeeperError.unexpectedResponse := by
  induction lines with
  | nil =>
    intro acc h
    obtain ⟨l, hl, _⟩ := h
    cases hl
  | cons x xs ih =>
    intro acc h
    obtain ⟨l, hl, hfail⟩ := h
    rcases List.mem_cons.1 hl with heq | hmem
    · subst heq
      simp [configLinesGo, hfail]
    · cases hx : parseConfigLine x with
      | none => simp [configLinesGo, hx]
      | some p =>
        simp only [configLinesGo, hx]
        exact ih (mapInsert p.1 p.2 acc) ⟨l, hmem, hfail⟩

/-- C6: parsing the two-line leader/follower response yields the map
`{1 : 127.0.0.1:20001, 2 : 127.0.0.1:20002}`, parsing "garbage" yields
`UnexpectedResponse`, and whenever any line of a response fails the grammar
the whole query fails with `UnexpectedResponse` — no partial map is ever
returned. -/
theorem keeper_config_parse_scenario :
    KeeperClient.config
        ("server.1=127.0.0.1:20001;role=leader\nserver.2=127.0.0.1:20002;role=follower\n".toList) =
      Except.ok [(1, "127.0.0.1:20001".toList), (2, "127.0.0.1:20002".toList)] ∧
    KeeperClient.config ("garbage\n".toList) =
      Except.error KeeperError.unexpectedResponse ∧
    ∀ out line, line ∈ rustLines out → parseConfigLine line = none →
      KeeperClient.config out = Except.error KeeperError.unexpectedResponse := by
  refine ⟨by rfl, by rfl, ?_⟩
  intro out line hl hfail
  exact configLinesGo_error (rustLines out) [] ⟨line, hl, hfail⟩

/-- C6 witness: the all-or-nothing clause applied to the literal "garbage"
response. -/
theorem keeper_config_parse_scenario_witness :
    KeeperClient.config ("garbage\n".toList) =
      Except.error KeeperError.unexpectedResponse :=
  keeper_config_parse_scenario.2.2 ("garbage\n".toList) ("garbage".toList)
    (by decide) (by rfl)

/-! ## Bootstrap -/

/-- C7: `generate_config 3 2` produces the topology with keeper ids
`{1,2,3}`, server ids `{1,2}` and watermarks 3 and 2, renders exactly five
config artifacts — three keeper configs and two clickhouse configs — and
starts no process. -/
theorem generate_config_bootstrap :
    Deployment.generate_config 3 2 =
      some (⟨[1, 2, 3], 3, [1, 2], 2⟩,
        [Event.genServerConfig 1 [1, 2, 3] [1, 2],
         Event.genServerConfig 2 [1, 2, 3] [1, 2],
         Event.genKeeperConfig 1 [1, 2, 3],
         Event.genKeeperConfig 2 [1, 2, 3],
         Event.genKeeperConfig 3 [1, 2, 3],
         Event.saveMeta ⟨[1, 2, 3], 3, [1, 2], 2⟩]) ∧
    ∀ m0 tr, Deployment.generate_config 3 2 = some (m0, tr) →
      (tr.filter isRenderEvent).length = 5 ∧
      (tr.filter isKeeperRenderEvent).length = 3 ∧
      (tr.filter isServerRenderEvent).length = 2 ∧
      (tr.filter isStartEvent).length = 0 := by
  refine ⟨by decide, ?_⟩
  intro m0 tr h
  rw [show Deployment.generate_config 3 2 =
      some ((⟨[1, 2, 3], 3, [1, 2], 2⟩ : ClickwardMetadata),
        [Event.genServerConfig 1 [1, 2, 3] [1, 2],
         Event.genServerConfig 2 [1, 2, 3] [1, 2],
         Event.genKeeperConfig 1 [1, 2, 3],
         Event.genKeeperConfig 2 [1, 2, 3],
         Event.genKeeperConfig 3 [1, 2, 3],
         Event.saveMeta ⟨[1, 2, 3], 3, [1, 2], 2⟩]) from by decide] at h
  obtain ⟨h1, h2⟩ := Prod.ext_iff.1 (Option.some.inj h)
  subst h2
  decide

/-- C7 witness: the artifact counts of `generate_config 3 2`, with the
hypothesis discharged on the concrete result. -/
theorem generate_config_bootstrap_witness :
    (([Event.genServerConfig 1 [1, 2, 3] [1, 2],
       Event.genServerConfig 2 [1, 2, 3] [1, 2],
       Event.genKeeperConfig 1 [1, 2, 3],
       Event.genKeeperConfig 2 [1, 2, 3],
       Event.genKeeperConfig 3 [1, 2, 3],
       Event.saveMeta ⟨[1, 2, 3], 3, [1, 2], 2⟩].filter isRenderEvent).length = 5 ∧
     ([Event.genServerConfig 1 [1, 2, 3] [1, 2],
       Event.genServerConfig 2 [1, 2, 3] [1, 2],
       Event.genKeeperConfig 1 [1, 2, 3],
       Event.genKeeperConfig 2 [1, 2, 3],
       Event.genKeeperConfig 3 [1, 2, 3],
       Event.saveMeta ⟨[1, 2, 3], 3, [1, 2], 2⟩].filter isKeeperRenderEvent).length = 3 ∧
     ([Event.genServerConfig 1 [1, 2, 3] [1, 2],
       Event.genServerConfig 2 [1, 2, 3] [1, 2],
       Event.genKeeperConfig 1 [1, 2, 3],
       Event.genKeeperConfig 2 [1, 2, 3],
       Event.genKeeperConfig 3 [1, 2, 3],
       Event.saveMeta ⟨[1, 2, 3], 3, [1, 2], 2⟩].filter isServerRenderEvent).length = 2 ∧
     ([Event.genServerConfig 1 [1, 2, 3] [1, 2],
       Event.genServerConfig 2 [1, 2, 3] [1, 2],
       Event.genKeeperConfig 1 [1, 2, 3],
       Event.genKeeperConfig 2 [1, 2, 3],
       Event.genKeeperConfig 3 [1, 2, 3],
       Event.saveMeta ⟨[1, 2, 3], 3, [1, 2], 2⟩].filter isStartEvent).length = 0) :=
  generate_config_bootstrap.2 ⟨[1, 2, 3], 3, [1, 2], 2⟩
    [Event.genServerConfig 1 [1, 2, 3] [1, 2],
     Event.genServerConfig 2 [1, 2, 3] [1, 2],
     Event.genKeeperConfig 1 [1, 2, 3],
     Event.genKeeperConfig 2 [1, 2, 3],
     Event.genKeeperConfig 3 [1, 2, 3],
     Event.saveMeta ⟨[1, 2, 3], 3, [1, 2], 2⟩] (by decide)

/-! ## Placement, teardown, and the bootstrap precondition -/

/-- C8: a node's ports and per-node directory are pure functions of the node
kind, the id and the deployment configuration — two deployments with the
same configuration but arbitrary (different) metadata compute identical
placements — and within the representable `u16` range each port equals its
base port plus the id. -/
theorem placement_deterministic (d d2 : Deployment) (id : ℕ)
    (hcfg : d.config = d2.config) (hid : id < 65536)
    (hh : d.config.base_ports.clickhouse_http + id < 65536)
    (hk : d.config.base_ports.keeper + id < 65536) :
    (d.http_port id = d2.http_port id ∧
     d.keeper_port id = d2.keeper_port id ∧
     d.keeperDir id = d2.keeperDir id ∧
     d.clickhouseDir id = d2.clickhouseDir id) ∧
    d.http_port id = d.config.base_ports.clickhouse_http + id ∧
    d.keeper_port id = d.config.base_ports.keeper + id := by
  have h1 : toU16 id = id := Nat.mod_eq_of_lt hid
  refine ⟨⟨?_, ?_, ?_, ?_⟩, ?_, ?_⟩
  · simp [Deployment.http_port, hcfg]
  · simp [Deployment.keeper_port, hcfg]
  · simp [Deployment.keeperDir, hcfg]
  · simp [Deployment.clickhouseDir, hcfg]
  · simp [Deployment.http_port, addU16, h1, Nat.mod_eq_of_lt hh]
  · simp [Deployment.keeper_port, addU16, h1, Nat.mod_eq_of_lt hk]

/-- C8 witness: with the default base ports, two deployments differing only
in their loaded metadata place node 9 identically, at ports 23000 + 9 and
20000 + 9. -/
theorem placement_deterministic_witness :
    (Deployment.http_port ⟨⟨['p'], DEFAULT_BASE_PORTS, ['c']⟩, none⟩ 9 =
       Deployment.http_port
         ⟨⟨['p'], DEFAULT_BASE_PORTS, ['c']⟩, some ⟨[1, 2, 3], 3, [1, 2], 2⟩⟩ 9 ∧
     Deployment.keeper_port ⟨⟨['p'], DEFAULT_BASE_PORTS, ['c']⟩, none⟩ 9 =
       Deployment.keeper_port
         ⟨⟨['p'], DEFAULT_BASE_PORTS, ['c']⟩, some ⟨[1, 2, 3], 3, [1, 2], 2⟩⟩ 9 ∧
     Deployment.keeperDir ⟨⟨['p'], DEFAULT_BASE_PORTS, ['c']⟩, none⟩ 9 =
       Deployment.keeperDir
         ⟨⟨['p'], DEFAULT_BASE_PORTS, ['c']⟩, some ⟨[1, 2, 3], 3, [1, 2], 2⟩⟩ 9 ∧
     Deployment.clickhouseDir ⟨⟨['p'], DEFAULT_BASE_PORTS, ['c']⟩, none⟩ 9 =
       Deployment.clickhouseDir
         ⟨⟨['p'], DEFAULT_BASE_PORTS, ['c']⟩, some ⟨[1, 2, 3], 3, [1, 2], 2⟩⟩ 9) ∧
    Deployment.http_port ⟨⟨['p'], DEFAULT_BASE_PORTS, ['c']⟩, none⟩ 9 =
      DEFAULT_BASE_PORTS.clickhouse_http + 9 ∧
    Deployment.keeper_port ⟨⟨['p'], DEFAULT_BASE_PORTS, ['c']⟩, none⟩ 9 =
      DEFAULT_BASE_PORTS.keeper + 9 :=
  placement_deterministic ⟨⟨['p'], DEFAULT_BASE_PORTS, ['c']⟩, none⟩
    ⟨⟨['p'], DEFAULT_BASE_PORTS, ['c']⟩, some ⟨[1, 2, 3], 3, [1, 2], 2⟩⟩ 9
    rfl (by decide) (by decide) (by decide)

/-- C9: teardown attempts to stop every keeper id and every server id
recorded in the topology — whatever the per-node stop outcomes are, the
attempt list is always the full list, so one node's failure never prevents a
later attempt — and teardown itself always returns success. -/
theorem teardown_best_effort (m : ClickwardMetadata) (stopOk : Event → Bool) :
    (Deployment.teardown (some m) stopOk).2 = true ∧
    ((Deployment.teardown (some m) stopOk).1.map Prod.fst =
      m.keeper_ids.map Event.stopKeeper ++ m.server_ids.map Event.stopServer) ∧
    (∀ id ∈ m.keeper_ids,
      (Event.stopKeeper id, stopOk (Event.stopKeeper id)) ∈
        (Deployment.teardown (some m) stopOk).1) ∧
    (∀ id ∈ m.server_ids,
      (Event.stopServer id, stopOk (Event.stopServer id)) ∈
        (Deployment.teardown (some m) stopOk).1) ∧
    (∀ o : Option ClickwardMetadata, (Deployment.teardown o stopOk).2 = true) := by
  refine ⟨rfl, ?_, ?_, ?_, ?_⟩
  · simp [Deployment.teardown, List.map_map, Function.comp_def]
  · intro id hid
    have h1 : Event.stopKeeper id ∈ m.keeper_ids.map Event.stopKeeper :=
      List.mem_map_of_mem _ hid
    have h2 : Event.stopKeeper id ∈
        m.keeper_ids.map Event.stopKeeper ++ m.server_ids.map Event.stopServer :=
      List.mem_append_left _ h1
    exact List.mem_map_of_mem _ h2
  · intro id hid
    have h1 : Event.stopServer id ∈ m.server_ids.map Event.stopServer :=
      List.mem_map_of_mem _ hid
    have h2 : Event.stopServer id ∈
        m.keeper_ids.map Event.stopKeeper ++ m.server_ids.map Event.stopServer :=
      List.mem_append_right _ h1
    exact List.mem_map_of_mem _ h2
  · intro o
    cases o <;> rfl

/-- C9 witness: even with an oracle under which every stop fails, teardown
of the topology with keepers `{1,2}` and server `{3}` still records an
attempt on keeper 1 and on server 3 and still returns success. -/
theorem teardown_best_effort_witness :
    (Deployment.teardown (some ⟨[1, 2], 2, [3], 3⟩) (fun _ => false)).2 = true ∧
    (Event.stopKeeper 1, false) ∈
      (Deployment.teardown (some ⟨[1, 2], 2, [3], 3⟩) (fun _ => false)).1 ∧
    (Event.stopServer 3, false) ∈
      (Deployment.teardown (some ⟨[1, 2], 2, [3], 3⟩) (fun _ => false)).1 :=
  ⟨(teardown_best_effort ⟨[1, 2], 2, [3], 3⟩ (fun _ => false)).1,
   (teardown_best_effort ⟨[1, 2], 2, [3], 3⟩ (fun _ => false)).2.2.1 1 (by decide),
   (teardown_best_effort ⟨[1, 2], 2, [3], 3⟩ (fun _ => false)).2.2.2.1 3 (by decide)⟩

/-- C10: `ClickwardMetadata::new` unwraps the last element of each id set,
so it aborts (panics) exactly when either set is empty; consequently
`generate_config` with zero keepers or zero replicas does not return an
error value but aborts, and it is total exactly when both counts are at
least 1. -/
theorem generate_config_empty_aborts :
    (∀ ks rs : List ℕ, ClickwardMetadata.new ks rs = none ↔ ks = [] ∨ rs = []) ∧
    (∀ k r : ℕ, Deployment.generate_config k r = none ↔ k = 0 ∨ r = 0) := by
  have hnew : ∀ ks rs : List ℕ,
      ClickwardMetadata.new ks rs = none ↔ ks = [] ∨ rs = [] := by
    intro ks rs
    constructor
    · intro h
      cases hks : ks.getLast? with
      | none => exact Or.inl (List.getLast?_eq_none_iff.1 hks)
      | some x =>
        cases hrs : rs.getLast? with
        | none => exact Or.inr (List.getLast?_eq_none_iff.1 hrs)
        | some y => simp [ClickwardMetadata.new, hks, hrs] at h
    · intro h
      rcases h with h | h
      · subst h
        simp [ClickwardMetadata.new]
      · subst h
        cases hks : ks.getLast? <;> simp [ClickwardMetadata.new, hks]
  refine ⟨hnew, ?_⟩
  intro k r
  constructor
  · intro h
    cases hn : ClickwardMetadata.new (List.range' 1 k) (List.range' 1 r) with
    | none =>
      rcases (hnew _ _).1 hn with h1 | h1
      · left
        have hlen := congrArg List.length h1
        simpa using hlen
      · right
        have hlen := congrArg List.length h1
        simpa using hlen
    | some meta => simp [Deployment.generate_config, hn] at h
  · intro h
    have hn : ClickwardMetadata.new (List.range' 1 k) (List.range' 1 r) = none := by
      apply (hnew _ _).2
      rcases h with h | h
      · subst h; exact Or.inl rfl
      · subst h; exact Or.inr rfl
    simp [Deployment.generate_config, hn]

/-- C10 witness: `generate_config 0 2` and `generate_config 3 0` abort,
while `generate_config 3 2` returns a value. -/
theorem generate_config_empty_aborts_witness :
    Deployment.generate_config 0 2 = none ∧
    Deployment.generate_config 3 0 = none ∧
    Deployment.generate_config 3 2 ≠ none ∧
    ClickwardMetadata.new [] [1, 2] = none :=
  ⟨(generate_config_empty_aborts.2 0 2).mpr (Or.inl rfl),
   (generate_config_empty_aborts.2 3 0).mpr (Or.inr rfl),
   fun h => by rcases (generate_config_empty_aborts.2 3 2).1 h with h | h <;> simp at h,
   (generate_config_empty_aborts.1 [] [1, 2]).mpr (Or.inl rfl)⟩

end Clickward
